import Mathlib

/-!
Shallow embedding of the real-time messaging core of `src/backend/server.js`
(a socket.io chat backend).  The relevant source is the `io.on("connection")
block:

  socket.on("join", (userId) => socket.join(userId));
  socket.on("typing", ({ to }) => { io.to(to).emit("typing"); });
  socket.on("message", async ({ from, to, text }) => {
    const message = new Message({ from, to, text, timestamp: new Date(), read: false });
    await message.save();
    io.to(to).emit("message", message);
  });
  socket.on("read", async ({ from, to }) => {
    await Message.updateMany({ from, to, read: false }, { read: true });
    io.to(from).emit("read-receipt", { from, to });
  });

Modelling choices, following the socket.io semantics the source calls into:
`socket.join(room)` adds the socket to the room (it never removes the socket
from any other room); `io.to(room).emit(ev, payload)` pushes `(ev, payload)`
to every socket currently in the room; after a transport disconnect the
socket's handlers are never invoked again.  The Mongo `Message` collection is
a list of records; `new Message({...}).save()` appends (it may fail at the
storage layer, modelled by a boolean outcome); `Message.updateMany(filter,
update)` rewrites every matching record and reports the number of records it
modified.  Timestamps are modelled as naturals (milliseconds since epoch).
-/

/-- A persisted chat message record: `{from, to, text, timestamp, read}`
(the mongoose `Message` schema; the JS field `from` is the Lean keyword
`from`, so it is rendered `from_`). -/
structure Message where
  from_ : String
  to_ : String
  text : String
  timestamp : Nat
  read : Bool
  deriving DecidableEq, Repr

/-- An opaque per-connection handle (socket id). -/
abbrev SocketId := Nat

/-- The payload shapes that can travel on an outbound emit.  The source emits
`typing` with no payload, `message` with the saved record, and
`read-receipt` with `{from, to}`.  The shape `typingFrom` is the payload
`{from: thisUser}` that the spec (section 4.4) ascribes to the `typing`
event; it is included in the payload universe solely so that statements can
compare what the source emits against that shape. -/
inductive Payload where
  | none
  | msg (m : Message)
  | readReceipt (from_ to_ : String)
  | typingFrom (from_ : String)
  deriving DecidableEq, Repr

/-- One outbound push: which socket receives which event with which payload. -/
structure Emit where
  target : SocketId
  event : String
  payload : Payload
  deriving DecidableEq, Repr

/-- Server-side shared state: the durable message collection and the
socket.io room-membership table (pairs of room name and socket id; the
room names are the user ids passed to `join`). -/
structure ServerState where
  store : List Message
  rooms : List (String × SocketId)
  deriving DecidableEq, Repr

/-- socket.io `socket.join(room)`: adds the socket to the room; idempotent,
and it does not remove the socket from any other room. -/
def joinRoom (rooms : List (String × SocketId)) (room : String) (sid : SocketId) :
    List (String × SocketId) :=
  if (room, sid) ∈ rooms then rooms else (room, sid) :: rooms

/-- socket.io `io.to(room).emit(ev, p)`: one push per socket currently in the
room; an empty room yields no pushes. -/
def emitToRoom (rooms : List (String × SocketId)) (room : String) (ev : String)
    (p : Payload) : List Emit :=
  (rooms.filter (fun r => r.1 == room)).map (fun r => { target := r.2, event := ev, payload := p })

/-- Handler of the `join` event: `socket.join(userId)` and nothing else. -/
def handleJoin (s : ServerState) (sid : SocketId) (userId : String) : ServerState :=
  { s with rooms := joinRoom s.rooms userId sid }

/-- Handler of the `typing` event: `io.to(to).emit("typing")` — note the
emit carries no payload and the handler touches no state. -/
def handleTyping (s : ServerState) (to_ : String) : ServerState × List Emit :=
  (s, emitToRoom s.rooms to_ "typing" Payload.none)

/-- Handler of the `message` event.  `saveOk` is the outcome of the awaited
`message.save()` at the storage layer: when it resolves, the record (built
with `timestamp: new Date()` — the server clock `now` — and `read: false`)
has been appended and `io.to(to).emit("message", message)` runs; when it
rejects, the handler aborts before the emit (there is no catch), so nothing
is persisted and nothing is emitted to anyone. -/
def handleMessage (s : ServerState) (now : Nat) (saveOk : Bool)
    (from_ to_ text : String) : ServerState × List Emit :=
  if saveOk then
    let m : Message := { from_ := from_, to_ := to_, text := text, timestamp := now, read := false }
    ({ s with store := s.store ++ [m] }, emitToRoom s.rooms to_ "message" (Payload.msg m))
  else (s, [])

/-- The per-record effect of `Message.updateMany({from, to, read: false},
{read: true})`: a record matching the filter gets `read := true`, any other
record is untouched. -/
def applyRead (a b : String) (m : Message) : Message :=
  if m.from_ == a && m.to_ == b && m.read == false then { m with read := true } else m

/-- `Message.updateMany({from: a, to: b, read: false}, {read: true})`:
returns the updated collection together with the number of records the
update modified (mongoose's `modifiedCount`). -/
def markRead (st : List Message) (a b : String) : List Message × Nat :=
  (st.map (applyRead a b),
   (st.filter (fun m => m.from_ == a && m.to_ == b && m.read == false)).length)

/-- Handler of the `read` event.  `updateOk` is the outcome of the awaited
`Message.updateMany`: when it resolves, the collection has been updated and
`io.to(from).emit("read-receipt", { from, to })` runs; when it rejects, the
handler aborts before the emit. -/
def handleRead (s : ServerState) (updateOk : Bool) (from_ to_ : String) :
    ServerState × List Emit :=
  if updateOk then
    ({ s with store := (markRead s.store from_ to_).1 },
     emitToRoom s.rooms from_ "read-receipt" (Payload.readReceipt from_ to_))
  else (s, [])

/-- The inbound client events the connection handler listens for.  The
`message` event destructures only `{from, to, text}` from its payload, and
`read` only `{from, to}`: a client cannot supply a timestamp or a read
flag. -/
inductive ClientEvent where
  | join (userId : String)
  | typing (to_ : String)
  | message (from_ to_ text : String)
  | readEv (from_ to_ : String)
  deriving DecidableEq, Repr

/-- Whether an event is the `join` event. -/
def ClientEvent.isJoin : ClientEvent → Bool
  | .join _ => true
  | _ => false

/-- One inbound event processed on the connection `sid`, exactly as the
`io.on("connection")` block dispatches it: `now` is the server clock and
`ok` the storage-layer outcome of the awaited call, for the events that
make one. -/
def processEvent (s : ServerState) (sid : SocketId) (now : Nat) (ok : Bool) :
    ClientEvent → ServerState × List Emit
  | .join u => (handleJoin s sid u, [])
  | .typing t => handleTyping s t
  | .message f t x => handleMessage s now ok f t x
  | .readEv f t => handleRead s ok f t

/-- The transport boundary: a live socket (`live = true`) has its events
dispatched to `processEvent`; after disconnect the socket is closed and the
transport invokes no handler at all (socket.io emits nothing on a closed
socket), so the server state is untouched and nothing is pushed. -/
def dispatch (s : ServerState) (live : Bool) (sid : SocketId) (now : Nat) (ok : Bool)
    (e : ClientEvent) : ServerState × List Emit :=
  if live then processEvent s sid now ok e else (s, [])

/-! Helper lemmas about room delivery. -/

/-- Characterisation of `io.to(room).emit`: an emit is produced exactly for
the sockets in the room, always carrying the given event name and payload. -/
theorem mem_emitToRoom {rooms : List (String × SocketId)} {room ev : String}
    {p : Payload} {e : Emit} :
    e ∈ emitToRoom rooms room ev p ↔
      e.event = ev ∧ e.payload = p ∧ (room, e.target) ∈ rooms := by
  unfold emitToRoom
  simp only [List.mem_map, List.mem_filter]
  constructor
  · rintro ⟨⟨r1, r2⟩, ⟨hr, hq⟩, rfl⟩
    have h1 : r1 = room := by simpa using hq
    subst h1
    exact ⟨rfl, rfl, hr⟩
  · rintro ⟨he, hp, hmem⟩
    refine ⟨(room, e.target), ⟨hmem, by simp⟩, ?_⟩
    cases e
    simp_all

/-- Delivery to a room with no member produces no emit at all. -/
theorem emitToRoom_eq_nil {rooms : List (String × SocketId)} {room ev : String}
    {p : Payload} (hno : ∀ c, (room, c) ∉ rooms) :
    emitToRoom rooms room ev p = [] := by
  unfold emitToRoom
  have hf : rooms.filter (fun r => r.1 == room) = [] := by
    rw [List.filter_eq_nil_iff]
    rintro ⟨r1, r2⟩ hr hq
    have h1 : r1 = room := by simpa using hq
    subst h1
    exact hno r2 hr
  rw [hf]
  rfl

/-! Claim C1 — save validation. -/

/-- C1 counterexample: a `message` event with sender = recipient ("alice" to
"alice") is persisted all the same — the store gains the record, so the
operation neither fails with a `ValidationError` nor leaves the store
unchanged, contrary to the claim. -/
theorem C1_counterexample :
    (handleMessage { store := [], rooms := [] } 0 true "alice" "alice" "hi").1.store =
      [{ from_ := "alice", to_ := "alice", text := "hi", timestamp := 0, read := false }] ∧
    (handleMessage { store := [], rooms := [] } 0 true "alice" "alice" "hi").1.store ≠
      ({ store := [], rooms := [] } : ServerState).store := by
  exact ⟨rfl, by decide⟩

/-- C1 (amended): the `message` handler performs no validation at all — even
when sender equals recipient or the sender, recipient or text is empty, a
successful save appends the record to the store (in particular the store
changes), and no validation failure exists in the code. -/
theorem C1_save_no_validation (s : ServerState) (now : Nat) (f t x : String)
    (_h : f = t ∨ f = "" ∨ t = "" ∨ x = "") :
    (handleMessage s now true f t x).1.store =
      s.store ++ [{ from_ := f, to_ := t, text := x, timestamp := now, read := false }] ∧
    (handleMessage s now true f t x).1.store ≠ s.store := by
  refine ⟨rfl, ?_⟩
  intro hc
  have hl := congrArg List.length hc
  have hs : (handleMessage s now true f t x).1.store =
      s.store ++ [{ from_ := f, to_ := t, text := x, timestamp := now, read := false }] := rfl
  rw [hs] at hl
  simp at hl

/-- Witness for C1 at sender = recipient = "alice". -/
theorem C1_save_no_validation_witness :
    ("alice" = "alice" ∨ "alice" = "" ∨ "alice" = "" ∨ "hi" = "") ∧
    ((handleMessage { store := [], rooms := [] } 0 true "alice" "alice" "hi").1.store =
      [] ++ [{ from_ := "alice", to_ := "alice", text := "hi", timestamp := 0, read := false }] ∧
     (handleMessage { store := [], rooms := [] } 0 true "alice" "alice" "hi").1.store ≠
      ({ store := [], rooms := [] } : ServerState).store) :=
  ⟨Or.inl rfl, C1_save_no_validation { store := [], rooms := [] } 0 "alice" "alice" "hi" (Or.inl rfl)⟩

/-! Claim C4 — behaviour when save fails. -/

/-- C4 counterexample: the sender "alice" is joined on socket 1, her save
fails, and the handler emits nothing at all — in particular no error event
reaches the sender's own connection, contrary to the claim that the error is
surfaced there. -/
theorem C4_counterexample :
    handleMessage { store := [], rooms := [("alice", 1)] } 0 false "alice" "bob" "hi" =
      ({ store := [], rooms := [("alice", 1)] }, []) ∧
    (handleMessage { store := [], rooms := [("alice", 1)] } 0 false "alice" "bob" "hi").2.filter
      (fun e => e.target == 1) = [] := by
  exact ⟨rfl, rfl⟩

/-- C4 (amended): when `message.save()` rejects, the handler aborts before
the emit: nothing is persisted and nothing is emitted to anyone — neither to
the recipient nor to the sender's own connection; the rejection escapes the
handler unhandled (no catch in the code). -/
theorem C4_save_failure_drops_silently (s : ServerState) (sid : SocketId) (now : Nat)
    (ok : Bool) (f t x : String) (hfail : ok = false) :
    processEvent s sid now ok (ClientEvent.message f t x) = (s, []) := by
  subst hfail
  rfl

/-- Witness for C4 on a failing save from "alice" to "bob". -/
theorem C4_save_failure_drops_silently_witness :
    (false = false) ∧
    processEvent { store := [], rooms := [("alice", 1)] } 1 0 false
      (ClientEvent.message "alice" "bob" "hi") =
      ({ store := [], rooms := [("alice", 1)] }, []) :=
  ⟨rfl, C4_save_failure_drops_silently { store := [], rooms := [("alice", 1)] } 1 0 false
    "alice" "bob" "hi" rfl⟩

/-! Claim C8 — delivery fan-out. -/

/-- C8: `io.to(u).emit` delivers the payload to every connection currently
registered for `u` (each member of the room receives an emit with exactly
this event and payload), and when `u` has no registered connection the
delivery produces no emit at all — a silent no-op. -/
theorem C8_deliver_fanout (rooms : List (String × SocketId)) (u ev : String) (p : Payload) :
    (∀ c, (u, c) ∈ rooms →
      ({ target := c, event := ev, payload := p } : Emit) ∈ emitToRoom rooms u ev p) ∧
    ((∀ c, (u, c) ∉ rooms) → emitToRoom rooms u ev p = []) := by
  constructor
  · intro c hc
    exact mem_emitToRoom.mpr ⟨rfl, rfl, hc⟩
  · intro hno
    exact emitToRoom_eq_nil hno

/-- Witness for C8: user "u" with connections 1 and 2 — both receive the
emit; user "v" with no connection — no emit. -/
theorem C8_deliver_fanout_witness :
    (("u", 1) ∈ [("u", 1), ("u", 2)] ∧
      ({ target := 1, event := "message", payload := Payload.none } : Emit) ∈
        emitToRoom [("u", 1), ("u", 2)] "u" "message" Payload.none) ∧
    (("u", 2) ∈ [("u", 1), ("u", 2)] ∧
      ({ target := 2, event := "message", payload := Payload.none } : Emit) ∈
        emitToRoom [("u", 1), ("u", 2)] "u" "message" Payload.none) ∧
    ((∀ c, ("v", c) ∉ ([("u", 1), ("u", 2)] : List (String × SocketId))) ∧
      emitToRoom [("u", 1), ("u", 2)] "v" "message" Payload.none = []) := by
  have hv : ∀ c, ("v", c) ∉ ([("u", 1), ("u", 2)] : List (String × SocketId)) := by
    intro c hc
    simp at hc
  refine ⟨⟨by decide, ?_⟩, ⟨by decide, ?_⟩, hv, ?_⟩
  · exact (C8_deliver_fanout [("u", 1), ("u", 2)] "u" "message" Payload.none).1 1 (by decide)
  · exact (C8_deliver_fanout [("u", 1), ("u", 2)] "u" "message" Payload.none).1 2 (by decide)
  · exact (C8_deliver_fanout [("u", 1), ("u", 2)] "v" "message" Payload.none).2 hv

/-! Claim C10 — the handlers never consult the connection's identity. -/

/-- C10: processing a `typing`, `message` or `read` event yields the same
store mutation and the same deliveries whatever connection it arrives on —
the handlers never read the socket id, hence never consult which user (if
any) that connection joined as; any connection can act for any (from, to)
pair. -/
theorem C10_handlers_ignore_identity (s : ServerState) (sid sid' : SocketId) (now : Nat)
    (ok : Bool) (t f x : String) :
    processEvent s sid now ok (ClientEvent.typing t) =
      processEvent s sid' now ok (ClientEvent.typing t) ∧
    processEvent s sid now ok (ClientEvent.message f t x) =
      processEvent s sid' now ok (ClientEvent.message f t x) ∧
    processEvent s sid now ok (ClientEvent.readEv f t) =
      processEvent s sid' now ok (ClientEvent.readEv f t) :=
  ⟨rfl, rfl, rfl⟩

/-! Claim C2 — events and the join state. -/

/-- C2 counterexample: socket 1 never joined (it appears in no room of the
state), yet its `message` event is fully processed: the record is persisted
and delivered to "bob"'s socket 2 — contrary to the claim that `typing`,
`message` and `read` events are handled only in the Joined state. -/
theorem C2_counterexample :
    (({ store := [], rooms := [("bob", 2)] } : ServerState).rooms.filter
        (fun r => r.2 == 1) = []) ∧
    processEvent { store := [], rooms := [("bob", 2)] } 1 5 true
        (ClientEvent.message "alice" "bob" "hi") =
      ({ store :=
           [{ from_ := "alice", to_ := "bob", text := "hi", timestamp := 5, read := false }],
         rooms := [("bob", 2)] },
       [{ target := 2, event := "message",
          payload :=
            Payload.msg
              { from_ := "alice", to_ := "bob", text := "hi", timestamp := 5,
                read := false } }]) := by
  exact ⟨by decide, by decide⟩

/-- C2 (amended): `typing`, `message` and `read` events are processed in the
Unjoined state exactly as in the Joined state — the handlers never check
whether a `join` was received, so an unjoined connection's event has the
same effect as the same event on any other connection — while after
disconnect (Closed) the transport dispatches nothing: the state is untouched
and nothing is emitted. -/
theorem C2_unjoined_events_processed (s : ServerState) (sid jsid : SocketId) (now : Nat)
    (ok : Bool) (e : ClientEvent) (_hunj : ∀ u, (u, sid) ∉ s.rooms)
    (hnj : e.isJoin = false) :
    processEvent s sid now ok e = processEvent s jsid now ok e ∧
    dispatch s false sid now ok e = (s, []) := by
  cases e with
  | join u => simp [ClientEvent.isJoin] at hnj
  | typing t => exact ⟨rfl, rfl⟩
  | message f t x => exact ⟨rfl, rfl⟩
  | readEv f t => exact ⟨rfl, rfl⟩

/-- Witness for C2: unjoined socket 1 against joined socket 2. -/
theorem C2_unjoined_events_processed_witness :
    (∀ u, (u, 1) ∉ ({ store := [], rooms := [("bob", 2)] } : ServerState).rooms) ∧
    ClientEvent.isJoin (ClientEvent.message "alice" "bob" "hi") = false ∧
    (processEvent { store := [], rooms := [("bob", 2)] } 1 5 true
        (ClientEvent.message "alice" "bob" "hi") =
      processEvent { store := [], rooms := [("bob", 2)] } 2 5 true
        (ClientEvent.message "alice" "bob" "hi") ∧
     dispatch { store := [], rooms := [("bob", 2)] } false 1 5 true
        (ClientEvent.message "alice" "bob" "hi") =
      ({ store := [], rooms := [("bob", 2)] }, [])) := by
  have hunj : ∀ u, (u, 1) ∉ ({ store := [], rooms := [("bob", 2)] } : ServerState).rooms := by
    intro u hc
    simp at hc
  exact ⟨hunj, rfl,
    C2_unjoined_events_processed { store := [], rooms := [("bob", 2)] } 1 2 5 true
      (ClientEvent.message "alice" "bob" "hi") hunj rfl⟩

/-! Claim C3 — presence entries per connection. -/

/-- C3 counterexample: socket 1 joins as "alice" and then joins as "bob";
afterwards it is registered in both presence entries — the previous
association is not replaced and the connection appears in two entries,
contrary to the claim. -/
theorem C3_counterexample :
    ("alice", 1) ∈
      (handleJoin (handleJoin { store := [], rooms := [] } 1 "alice") 1 "bob").rooms ∧
    ("bob", 1) ∈
      (handleJoin (handleJoin { store := [], rooms := [] } 1 "alice") 1 "bob").rooms := by
  decide

/-- C3 (amended): `join` only ever adds a membership — every existing
presence membership survives any later `join`, and the joining socket is
registered under the new user id as well; hence a connection that joins
twice with different ids ends up in both presence entries. -/
theorem C3_join_accumulates (s : ServerState) (sid c : SocketId) (u v : String)
    (hmem : (v, c) ∈ s.rooms) :
    (v, c) ∈ (handleJoin s sid u).rooms ∧ (u, sid) ∈ (handleJoin s sid u).rooms := by
  have h : (handleJoin s sid u).rooms = joinRoom s.rooms u sid := rfl
  rw [h]
  unfold joinRoom
  by_cases hin : (u, sid) ∈ s.rooms
  · rw [if_pos hin]
    exact ⟨hmem, hin⟩
  · rw [if_neg hin]
    exact ⟨List.mem_cons_of_mem _ hmem, List.mem_cons_self _ _⟩

/-- Witness for C3: socket 1 already joined as "alice" re-joins as "bob". -/
theorem C3_join_accumulates_witness :
    (("alice", 1) ∈ ({ store := [], rooms := [("alice", 1)] } : ServerState).rooms) ∧
    (("alice", 1) ∈ (handleJoin { store := [], rooms := [("alice", 1)] } 1 "bob").rooms ∧
     ("bob", 1) ∈ (handleJoin { store := [], rooms := [("alice", 1)] } 1 "bob").rooms) :=
  ⟨by decide, C3_join_accumulates { store := [], rooms := [("alice", 1)] } 1 1 "bob" "alice"
    (by decide)⟩

/-! Claim C5 — the typing event's payload. -/

/-- C5 counterexample: socket 1 joined as "alice", socket 2 as "bob"; a
`typing({to: "bob"})` event from alice's socket emits the `typing` event to
socket 2 with no payload at all — not the `{from: "alice"}` payload the
claim requires. -/
theorem C5_counterexample :
    handleTyping { store := [], rooms := [("alice", 1), ("bob", 2)] } "bob" =
      ({ store := [], rooms := [("alice", 1), ("bob", 2)] },
       [{ target := 2, event := "typing", payload := Payload.none }]) ∧
    Payload.none ≠ Payload.typingFrom "alice" := by
  exact ⟨by decide, by decide⟩

/-- C5 (amended): a `typing({to})` event delivers a `typing` event to the
connections of user `to` with no payload — the sender identity is not
included (the handler does not even know which user the connection joined
as) — and nothing is persisted: the server state is unchanged. -/
theorem C5_typing_no_payload (s : ServerState) (t : String) (e : Emit)
    (he : e ∈ (handleTyping s t).2) :
    (handleTyping s t).1 = s ∧ e.event = "typing" ∧ e.payload = Payload.none ∧
    (t, e.target) ∈ s.rooms := by
  have he' : e ∈ emitToRoom s.rooms t "typing" Payload.none := he
  have h := mem_emitToRoom.mp he'
  exact ⟨rfl, h.1, h.2.1, h.2.2⟩

/-- Witness for C5: bob's socket 2 receives the payload-less typing event. -/
theorem C5_typing_no_payload_witness :
    (({ target := 2, event := "typing", payload := Payload.none } : Emit) ∈
      (handleTyping { store := [], rooms := [("alice", 1), ("bob", 2)] } "bob").2) ∧
    ((handleTyping { store := [], rooms := [("alice", 1), ("bob", 2)] } "bob").1 =
      { store := [], rooms := [("alice", 1), ("bob", 2)] } ∧
     ({ target := 2, event := "typing", payload := Payload.none } : Emit).event = "typing" ∧
     ({ target := 2, event := "typing", payload := Payload.none } : Emit).payload =
       Payload.none ∧
     ("bob", ({ target := 2, event := "typing", payload := Payload.none } : Emit).target) ∈
       ({ store := [], rooms := [("alice", 1), ("bob", 2)] } : ServerState).rooms) :=
  ⟨by decide, C5_typing_no_payload { store := [], rooms := [("alice", 1), ("bob", 2)] } "bob"
    { target := 2, event := "typing", payload := Payload.none } (by decide)⟩

/-! Helper lemmas about the updateMany record transformer. -/

/-- A record that does not match the updateMany filter is left untouched. -/
theorem applyRead_no_match (a b : String) (m : Message)
    (h : (m.from_ == a && m.to_ == b && m.read == false) = false) :
    applyRead a b m = m := by
  unfold applyRead
  rw [h]
  simp

/-- A record whose sender and recipient match the filter ends up read,
whether or not it was unread before. -/
theorem applyRead_match (a b : String) (m : Message) (h1 : m.from_ = a) (h2 : m.to_ = b) :
    applyRead a b m = { m with read := true } := by
  obtain ⟨mf, mt, mx, ms, mr⟩ := m
  subst h1
  subst h2
  cases mr with
  | false => simp [applyRead]
  | true => simp [applyRead]

/-- After the update has processed a record, the filter no longer matches
it: either it is now read, or it never matched. -/
theorem applyRead_filter_false (a b : String) (m : Message) :
    ((applyRead a b m).from_ == a && (applyRead a b m).to_ == b &&
      (applyRead a b m).read == false) = false := by
  unfold applyRead
  by_cases h : (m.from_ == a && m.to_ == b && m.read == false) = true
  · rw [if_pos h]
    simp
  · rw [if_neg h]
    cases hx : (m.from_ == a && m.to_ == b && m.read == false) with
    | false => rfl
    | true => exact absurd hx h

/-- Applying the update twice is the same as applying it once. -/
theorem applyRead_idem (a b : String) (m : Message) :
    applyRead a b (applyRead a b m) = applyRead a b m :=
  applyRead_no_match a b (applyRead a b m) (applyRead_filter_false a b m)

/-- The updateMany filter matches a record exactly when the update would
change it: flipped rows and filter-matched rows are the same rows. -/
theorem applyRead_changes_iff (a b : String) (m : Message) :
    decide (applyRead a b m ≠ m) = (m.from_ == a && m.to_ == b && m.read == false) := by
  by_cases h : (m.from_ == a && m.to_ == b && m.read == false) = true
  · have hr : m.read = false := by
      have h' := h
      simp only [Bool.and_eq_true, beq_iff_eq] at h'
      exact h'.2
    have hm : applyRead a b m = { m with read := true } := by
      unfold applyRead
      rw [h]
      simp
    rw [h, decide_eq_true_eq, hm]
    intro heq
    have hread := congrArg Message.read heq
    simp [hr] at hread
  · have hf : (m.from_ == a && m.to_ == b && m.read == false) = false := by
      cases hx : (m.from_ == a && m.to_ == b && m.read == false) with
      | false => rfl
      | true => exact absurd hx h
    rw [hf]
    have hm := applyRead_no_match a b m hf
    simp [hm]

/-! Claim C6 — markRead over a (sender, recipient) pair. -/

/-- C6 counterexample: at the pair (A, B) = ("a", "a") — a pair the claim
quantifies over, and such self-addressed records are reachable because the
code never validates sender ≠ recipient — the single message from B to A
(the same "a" → "a" record) is not left unchanged: updateMany flips it. -/
theorem C6_counterexample :
    markRead [{ from_ := "a", to_ := "a", text := "x", timestamp := 0, read := false }]
        "a" "a" =
      ([{ from_ := "a", to_ := "a", text := "x", timestamp := 0, read := true }], 1) ∧
    ({ from_ := "a", to_ := "a", text := "x", timestamp := 0, read := true } : Message) ≠
      { from_ := "a", to_ := "a", text := "x", timestamp := 0, read := false } := by
  exact ⟨by decide, by decide⟩

/-- C6 (amended, restricted to pairs with A ≠ B): after `markRead(A, B)`
every message from A to B is read (previously-unread ones are flipped),
every message from B to A is unchanged, the returned count is the number of
rows the update changed, and running `markRead(A, B)` again returns the same
collection with 0 rows affected. -/
theorem C6_markRead_pair_spec (st : List Message) (A B : String) (hAB : A ≠ B) :
    (∀ (i : Nat) (m : Message), st[i]? = some m → m.from_ = A → m.to_ = B →
      ((markRead st A B).1)[i]? = some { m with read := true }) ∧
    (∀ (i : Nat) (m : Message), st[i]? = some m → m.from_ = B → m.to_ = A →
      ((markRead st A B).1)[i]? = some m) ∧
    ((markRead st A B).2 =
      (st.filter (fun m => decide (applyRead A B m ≠ m))).length) ∧
    markRead (markRead st A B).1 A B = ((markRead st A B).1, 0) := by
  have hfst : (markRead st A B).1 = st.map (applyRead A B) := rfl
  refine ⟨?_, ?_, ?_, ?_⟩
  · intro i m hi h1 h2
    rw [hfst, List.getElem?_map, hi, Option.map_some', applyRead_match A B m h1 h2]
  · intro i m hi h1 h2
    have hne : (m.from_ == A) = false := by
      have : m.from_ ≠ A := by
        rw [h1]
        exact fun hc => hAB hc.symm
      simpa using this
    have hcond : (m.from_ == A && m.to_ == B && m.read == false) = false := by
      rw [hne]
      rfl
    rw [hfst, List.getElem?_map, hi, Option.map_some', applyRead_no_match A B m hcond]
  · have hcong : st.filter (fun m => decide (applyRead A B m ≠ m)) =
        st.filter (fun m => m.from_ == A && m.to_ == B && m.read == false) := by
      apply List.filter_congr
      intro m _
      exact applyRead_changes_iff A B m
    show (st.filter (fun m => m.from_ == A && m.to_ == B && m.read == false)).length = _
    rw [hcong]
  · have hmap : (st.map (applyRead A B)).map (applyRead A B) = st.map (applyRead A B) := by
      rw [List.map_map]
      apply List.map_congr_left
      intro m _
      exact applyRead_idem A B m
    have hfil : (st.map (applyRead A B)).filter
        (fun m => m.from_ == A && m.to_ == B && m.read == false) = [] := by
      rw [List.filter_eq_nil_iff]
      intro m hm
      obtain ⟨m0, _, rfl⟩ := List.mem_map.mp hm
      intro hc
      rw [applyRead_filter_false A B m0] at hc
      exact Bool.false_ne_true hc
    show ((st.map (applyRead A B)).map (applyRead A B),
        ((st.map (applyRead A B)).filter
          (fun m => m.from_ == A && m.to_ == B && m.read == false)).length) =
      (st.map (applyRead A B), 0)
    rw [hmap, hfil]
    rfl

/-- Witness for C6 on a two-message store: "a" → "b" unread and "b" → "a"
unread; `markRead("a", "b")` flips the first, keeps the second, and a second
run affects 0 rows. -/
theorem C6_markRead_pair_spec_witness :
    ("a" ≠ "b") ∧
    ((markRead
        [{ from_ := "a", to_ := "b", text := "hi", timestamp := 0, read := false },
         { from_ := "b", to_ := "a", text := "yo", timestamp := 1, read := false }]
        "a" "b").1)[0]? =
      some { from_ := "a", to_ := "b", text := "hi", timestamp := 0, read := true } ∧
    ((markRead
        [{ from_ := "a", to_ := "b", text := "hi", timestamp := 0, read := false },
         { from_ := "b", to_ := "a", text := "yo", timestamp := 1, read := false }]
        "a" "b").1)[1]? =
      some { from_ := "b", to_ := "a", text := "yo", timestamp := 1, read := false } ∧
    markRead
        (markRead
          [{ from_ := "a", to_ := "b", text := "hi", timestamp := 0, read := false },
           { from_ := "b", to_ := "a", text := "yo", timestamp := 1, read := false }]
          "a" "b").1 "a" "b" =
      ((markRead
          [{ from_ := "a", to_ := "b", text := "hi", timestamp := 0, read := false },
           { from_ := "b", to_ := "a", text := "yo", timestamp := 1, read := false }]
          "a" "b").1, 0) := by
  refine ⟨by decide, ?_, ?_, ?_⟩
  · exact (C6_markRead_pair_spec
      [{ from_ := "a", to_ := "b", text := "hi", timestamp := 0, read := false },
       { from_ := "b", to_ := "a", text := "yo", timestamp := 1, read := false }]
      "a" "b" (by decide)).1 0
      { from_ := "a", to_ := "b", text := "hi", timestamp := 0, read := false } rfl rfl rfl
  · exact (C6_markRead_pair_spec
      [{ from_ := "a", to_ := "b", text := "hi", timestamp := 0, read := false },
       { from_ := "b", to_ := "a", text := "yo", timestamp := 1, read := false }]
      "a" "b" (by decide)).2.1 1
      { from_ := "b", to_ := "a", text := "yo", timestamp := 1, read := false } rfl rfl rfl
  · exact (C6_markRead_pair_spec
      [{ from_ := "a", to_ := "b", text := "hi", timestamp := 0, read := false },
       { from_ := "b", to_ := "a", text := "yo", timestamp := 1, read := false }]
      "a" "b" (by decide)).2.2.2

/-! Claim C7 — destination of the read receipt. -/

/-- C7: when the updateMany of a `read({from, to})` event succeeds, the
store is updated by markRead(from, to) and a `read-receipt` event with
payload {from, to} goes to every connection of the `from` identity (the
reader who issued the event) and to no other connection — in particular not
to a connection of `to` unless that connection also belongs to `from`. -/
theorem C7_read_receipt_to_reader (s : ServerState) (ok : Bool) (f t : String)
    (hok : ok = true) :
    (handleRead s ok f t).1.store = (markRead s.store f t).1 ∧
    (∀ c, (f, c) ∈ s.rooms →
      ({ target := c, event := "read-receipt", payload := Payload.readReceipt f t } : Emit) ∈
        (handleRead s ok f t).2) ∧
    (∀ e ∈ (handleRead s ok f t).2,
      e.event = "read-receipt" ∧ e.payload = Payload.readReceipt f t ∧
        (f, e.target) ∈ s.rooms) ∧
    (∀ c, (f, c) ∉ s.rooms → ∀ e ∈ (handleRead s ok f t).2, e.target ≠ c) := by
  subst hok
  have hsnd : (handleRead s true f t).2 =
      emitToRoom s.rooms f "read-receipt" (Payload.readReceipt f t) := rfl
  refine ⟨rfl, ?_, ?_, ?_⟩
  · intro c hc
    rw [hsnd]
    exact mem_emitToRoom.mpr ⟨rfl, rfl, hc⟩
  · intro e he
    rw [hsnd] at he
    exact mem_emitToRoom.mp he
  · intro c hc e he heq
    rw [hsnd] at he
    have hmem := (mem_emitToRoom.mp he).2.2
    rw [heq] at hmem
    exact hc hmem

/-- Witness for C7: "alice" (socket 1) issues `read({from: "alice", to:
"bob"})`; her own socket receives the receipt. -/
theorem C7_read_receipt_to_reader_witness :
    (true = true) ∧
    (("alice", 1) ∈ ({ store := [], rooms := [("alice", 1), ("bob", 2)] } : ServerState).rooms) ∧
    ({ target := 1, event := "read-receipt",
       payload := Payload.readReceipt "alice" "bob" } : Emit) ∈
      (handleRead { store := [], rooms := [("alice", 1), ("bob", 2)] } true "alice" "bob").2 :=
  ⟨rfl, by decide,
   (C7_read_receipt_to_reader { store := [], rooms := [("alice", 1), ("bob", 2)] } true
     "alice" "bob" rfl).2.1 1 (by decide)⟩

/-! Claim C9 — fields of a successfully saved message. -/

/-- C9: for a valid input (sender ≠ recipient, both non-empty), a successful
save appends exactly one record whose read flag is false and whose timestamp
is the server clock at the time the handler persists it (the inbound
`message` payload carries no timestamp the client could supply), hence ≥ the
time of the call; the delivered payload is that same record. -/
theorem C9_save_read_false_server_timestamp (s : ServerState) (now : Nat) (f t x : String)
    (_hft : f ≠ t) (_hf : f ≠ "") (_ht : t ≠ "") :
    ∃ m : Message,
      (handleMessage s now true f t x).1.store = s.store ++ [m] ∧
      m.from_ = f ∧ m.to_ = t ∧ m.text = x ∧ m.read = false ∧
      m.timestamp = now ∧ now ≤ m.timestamp ∧
      (handleMessage s now true f t x).2 = emitToRoom s.rooms t "message" (Payload.msg m) :=
  ⟨{ from_ := f, to_ := t, text := x, timestamp := now, read := false },
    rfl, rfl, rfl, rfl, rfl, rfl, Nat.le_refl now, rfl⟩

/-- Witness for C9 at the valid input ("alice", "bob", "hi") at time 7. -/
theorem C9_save_read_false_server_timestamp_witness :
    ("alice" ≠ "bob" ∧ "alice" ≠ "" ∧ "bob" ≠ "") ∧
    (∃ m : Message,
      (handleMessage { store := [], rooms := [] } 7 true "alice" "bob" "hi").1.store =
        [] ++ [m] ∧
      m.from_ = "alice" ∧ m.to_ = "bob" ∧ m.text = "hi" ∧ m.read = false ∧
      m.timestamp = 7 ∧ 7 ≤ m.timestamp ∧
      (handleMessage { store := [], rooms := [] } 7 true "alice" "bob" "hi").2 =
        emitToRoom [] "bob" "message" (Payload.msg m)) :=
  ⟨⟨by decide, by decide, by decide⟩,
   C9_save_read_false_server_timestamp { store := [], rooms := [] } 7 "alice" "bob" "hi"
     (by decide) (by decide) (by decide)⟩
